import Mathlib

/-!
Verification of the bounded incremental snapshot reader of the
CloudProjectBitcoin dashboard (src/app.py and src/Function.py).

The embedding models the two Delta-table readers:

* `load_predictions_batched` (app.py, lines 48-105): project the wanted
  columns onto the dataset schema, fail when `event_time_ts` is absent,
  then fold the record batches through an online bounded top-N
  accumulator (drop rows with unparsable `event_time_ts`, concatenate,
  sort descending by `event_time_ts`, truncate to `N_ROWS`).
* `load_predictions` (Function.py, lines 37-60): read everything at once,
  drop rows with unparsable `event_time_ts`, sort descending, truncate.

Timestamps are modelled as `Option Int` (epoch seconds after
`pd.to_datetime(..., errors="coerce", utc=True)`; `none` is `NaT`).
Probabilities are modelled as `Rat`; the comparisons the claims exercise
are at exactly representable or well separated values, so rational
arithmetic agrees with the double precision arithmetic of the source.

Two modelling points that matter:

* The lookback path crashes.  app.py line 79 computes
  `cutoff = pd.Timestamp.utcnow().tz_localize("UTC") - ...` outside the
  `try` that starts at line 80.  `pd.Timestamp.utcnow()` is already
  timezone-aware, and `tz_localize` raises `TypeError` on an aware
  timestamp, so whenever `LOOKBACK_HOURS > 0` the fetch raises an
  uncaught `TypeError` before any predicate is built or any batch is
  scanned; lines 80-83 (the pushdown predicate and its failure handler)
  are unreachable.  The embedding models this outcome as
  `LoadError.cutoffTypeError`.  In every run that reaches the scanner,
  `arrow_filter` is `None`, so batches arrive unfiltered.

* `pandas.sort_values("event_time_ts", ascending=False)` with the
  default `kind="quicksort"` leaves the relative order of rows with
  equal keys unspecified (pandas documents only mergesort/stable as
  stable).  The embedding uses `List.insertionSort` as one executable
  representative of a descending sort; no theorem below depends on the
  model's tie order, only on sortedness and on the sorted output being a
  permutation of the input, which hold for every sort implementation.
-/

namespace BtcApp

/-- One prediction row, with the seven columns the readers select
(`wanted` in app.py line 66 and `cols` in Function.py line 56).
`event_time_ts` and `scoring_time` are the coerced timestamps;
`none` models a null / unparsable value. -/
structure Row where
  symbol : String
  interval : String
  event_time_ts : Option Int
  proba_up : Rat
  pred_up : Option Bool
  model_run_id : Option String
  scoring_time : Option Int
deriving DecidableEq

/-- Sort key used by both readers: the coerced `event_time_ts`.
Rows reaching a sort always have `isSome` timestamps (they passed
`dropna(subset=["event_time_ts"])`), so the default is never exercised. -/
def keyOf (r : Row) : Int :=
  r.event_time_ts.getD 0

/-- Relation ordering rows by descending `event_time_ts`
(`sort_values("event_time_ts", ascending=False)`). -/
abbrev descRel (a b : Row) : Prop :=
  keyOf b ≤ keyOf a

instance : IsTotal Row descRel :=
  ⟨fun a b => le_total (keyOf b) (keyOf a)⟩

instance : IsTrans Row descRel :=
  ⟨fun _ _ _ hab hbc => le_trans hbc hab⟩

/-- Descending sort by `event_time_ts`, the model of
`sort_values("event_time_ts", ascending=False)` (app.py line 103,
Function.py line 57).  pandas' default `kind="quicksort"` leaves the
order of equal keys unspecified; `insertionSort` is one executable
representative, and no theorem in this file depends on its tie order —
only on sortedness and on the result being a permutation of the
input. -/
def sortDesc (l : List Row) : List Row :=
  List.insertionSort descRel l

/-- The column list `wanted` of app.py line 66 (identical to `cols` of
Function.py line 56). -/
def wantedColumns : List String :=
  ["symbol", "interval", "event_time_ts", "proba_up", "pred_up",
   "model_run_id", "scoring_time"]

/-- Schema projection `[c for c in wanted if c in dataset.schema.names]`
(app.py line 67, Function.py line 56). -/
def projectColumns (desired schemaNames : List String) : List String :=
  desired.filter (fun c => decide (c ∈ schemaNames))

/-- The `existing` column list of app.py line 67. -/
def existingColumns (schemaNames : List String) : List String :=
  projectColumns wantedColumns schemaNames

/-- The dataset-level failures of `load_predictions_batched`:

* `missingOrderingColumn` — the `ValueError` raised at app.py lines
  71-74 when `event_time_ts` is not in the schema; it carries the
  available column names for the message.
* `cutoffTypeError` — the uncaught `TypeError` raised at app.py line 79:
  `pd.Timestamp.utcnow()` is already timezone-aware and
  `tz_localize("UTC")` raises on an aware timestamp.  Line 79 sits
  outside the `try` of lines 80-83, so every fetch with
  `LOOKBACK_HOURS > 0` fails here before any batch is scanned. -/
inductive LoadError where
  | missingOrderingColumn (available : List String)
  | cutoffTypeError
deriving DecidableEq

/-- Model of `chunk.dropna(subset=["event_time_ts"])` (app.py line 97,
Function.py line 57). -/
def dropnaEventTime (chunk : List Row) : List Row :=
  chunk.filter (fun r => r.event_time_ts.isSome)

/-- Bounded top-N selection: sort descending by `event_time_ts` and keep
the first `nRows` rows (app.py line 103, Function.py lines 57-60). -/
def topN (nRows : Nat) (l : List Row) : List Row :=
  (sortDesc l).take nRows

/-- One iteration of the batch loop of app.py lines 89-103: drop rows
with unparsable `event_time_ts`, skip an empty chunk, otherwise append
the chunk to `keep`, sort descending and truncate to `nRows`. -/
def accumulate (nRows : Nat) (keep : List Row) (rb : List Row) : List Row :=
  let chunk := dropnaEventTime rb
  if chunk.isEmpty then keep
  else topN nRows (keep ++ chunk)

/-- The whole batch loop of app.py lines 88-103, starting from the empty
`keep = pd.DataFrame(columns=existing)`. -/
def accumulateBatches (nRows : Nat) (batches : List (List Row)) : List Row :=
  batches.foldl (accumulate nRows) []

/-- Model of `load_predictions_batched` (app.py lines 48-105).
`lookbackHours` is `LOOKBACK_HOURS`, `nRows` is `N_ROWS`, `schemaNames`
is `dataset.schema.names` and `batches` are the record batches the
scanner yields, in scan order.  Control flow of the source: the
missing-column check of lines 69-74 fires first; then, if
`LOOKBACK_HOURS > 0`, line 79 raises the uncaught `TypeError` described
at `LoadError.cutoffTypeError` (modelled as that error) before the
scanner is built; otherwise `arrow_filter` stays `None`, the scanner
yields the batches unfiltered, and the loop of lines 88-103 folds them.
The final `reset_index(drop=True)` only renumbers the index and leaves
the row sequence unchanged. -/
def load_predictions_batched (lookbackHours : Nat) (nRows : Nat)
    (schemaNames : List String) (batches : List (List Row)) :
    Except LoadError (List Row) :=
  if "event_time_ts" ∉ existingColumns schemaNames then
    Except.error (LoadError.missingOrderingColumn schemaNames)
  else if 0 < lookbackHours then
    Except.error LoadError.cutoffTypeError
  else
    Except.ok (accumulateBatches nRows batches)

/-- Model of `load_predictions` (Function.py lines 37-60): the naive
reader.  `dt.to_pandas()` yields all rows at once; an empty frame is
returned as is, otherwise timestamps are coerced, the useful columns
kept, rows with unparsable `event_time_ts` dropped, and the frame is
sorted descending and truncated to `N_ROWS`. -/
def load_predictions (nRows : Nat) (rows : List Row) : List Row :=
  if rows.isEmpty then rows
  else (sortDesc (dropnaEventTime rows)).take nRows

/-- Default `PROBA_BUY` (0.60, app.py line 22 / Function.py line 20). -/
def PROBA_BUY : Rat := 3/5

/-- Default `PROBA_SELL` (0.40, app.py line 23 / Function.py line 21). -/
def PROBA_SELL : Rat := 2/5

/-- Model of `signal_from_proba` (app.py lines 39-44, identical in
Function.py lines 62-67). -/
def signal_from_proba (buy sell p : Rat) : String :=
  if p ≥ buy then "🟢 BUY"
  else if p ≤ sell then "🔴 SELL"
  else "🟡 HOLD"

/-- A fresh sample row used to instantiate proved claims (its
probability is the integer rational 1 so that kernel evaluation of row
equality never has to normalise a fraction). -/
def rowA : Row :=
  ⟨"BTCUSDT", "5m", some 100, 1, some true, some "run-1", some 101⟩

/-- A second sample row, older than `rowA`. -/
def rowB : Row :=
  ⟨"ETHUSDT", "5m", some 50, 0, some false, some "run-2", some 102⟩

/-- A sample row far older than a 24 hour lookback window. -/
def rowOld : Row :=
  ⟨"BTCUSDT", "5m", some (-1000000), 1, none, none, none⟩

/-- A sample row with an unparsable event time (`NaT` after coercion). -/
def rowNull : Row :=
  ⟨"BTCUSDT", "5m", none, 0, none, none, none⟩

instance {ε α : Type} [DecidableEq ε] [DecidableEq α] :
    DecidableEq (Except ε α) := fun a b =>
  match a, b with
  | .ok x, .ok y => decidable_of_iff (x = y) (by simp)
  | .error x, .error y => decidable_of_iff (x = y) (by simp)
  | .ok _, .error _ => isFalse (by simp)
  | .error _, .ok _ => isFalse (by simp)

theorem mem_projectColumns {desired schemaNames : List String} {c : String} :
    c ∈ projectColumns desired schemaNames ↔ c ∈ desired ∧ c ∈ schemaNames := by
  simp [projectColumns, List.mem_filter]

theorem mem_existingColumns {schemaNames : List String} :
    "event_time_ts" ∈ existingColumns schemaNames ↔
      "event_time_ts" ∈ schemaNames := by
  rw [existingColumns, mem_projectColumns]
  simp [wantedColumns]

theorem sortDesc_sorted (l : List Row) : List.Sorted descRel (sortDesc l) :=
  List.sorted_insertionSort descRel l

theorem sortDesc_perm (l : List Row) : List.Perm (sortDesc l) l :=
  List.perm_insertionSort descRel l

theorem topN_sorted (n : Nat) (l : List Row) :
    List.Sorted descRel (topN n l) :=
  List.Pairwise.sublist (List.take_sublist n (sortDesc l)) (sortDesc_sorted l)

theorem topN_length_le (n : Nat) (l : List Row) : (topN n l).length ≤ n :=
  List.length_take_le n (sortDesc l)

/-- Invariant of the batch loop, independent of the sort's tie order:
starting from a state that is short, descending and free of null event
times, every later state is as well. -/
theorem foldl_accumulate_inv (n : Nat) (bs : List (List Row)) :
    ∀ keep : List Row, keep.length ≤ n → List.Sorted descRel keep →
      (∀ r ∈ keep, r.event_time_ts.isSome) →
      (bs.foldl (accumulate n) keep).length ≤ n ∧
      List.Sorted descRel (bs.foldl (accumulate n) keep) ∧
      ∀ r ∈ bs.foldl (accumulate n) keep, r.event_time_ts.isSome := by
  induction bs with
  | nil => exact fun keep h1 h2 h3 => ⟨h1, h2, h3⟩
  | cons b bs ih =>
    intro keep h1 h2 h3
    rw [List.foldl_cons]
    by_cases hc : (dropnaEventTime b).isEmpty
    · have hstep : accumulate n keep b = keep := by
        unfold accumulate
        rw [if_pos hc]
      rw [hstep]
      exact ih keep h1 h2 h3
    · have hstep : accumulate n keep b = topN n (keep ++ dropnaEventTime b) := by
        unfold accumulate
        rw [if_neg hc]
      rw [hstep]
      refine ih _ (topN_length_le n _) (topN_sorted n _) ?_
      intro r hr
      have hr1 : r ∈ sortDesc (keep ++ dropnaEventTime b) :=
        (List.take_sublist n _).subset hr
      have hr2 : r ∈ keep ++ dropnaEventTime b := (sortDesc_perm _).mem_iff.mp hr1
      rcases List.mem_append.mp hr2 with hk | hcb
      · exact h3 r hk
      · exact (List.mem_filter.mp hcb).2

theorem accumulateBatches_inv (n : Nat) (bs : List (List Row)) :
    (accumulateBatches n bs).length ≤ n ∧
    List.Sorted descRel (accumulateBatches n bs) ∧
    ∀ r ∈ accumulateBatches n bs, r.event_time_ts.isSome :=
  foldl_accumulate_inv n bs [] (Nat.zero_le n) List.sorted_nil
    (fun r hr => absurd hr (List.not_mem_nil r))

theorem load_predictions_batched_missing (lookbackHours nRows : Nat)
    (schemaNames : List String) (batches : List (List Row))
    (h : "event_time_ts" ∉ schemaNames) :
    load_predictions_batched lookbackHours nRows schemaNames batches =
      Except.error (LoadError.missingOrderingColumn schemaNames) := by
  unfold load_predictions_batched
  rw [if_pos (fun hmem => h (mem_existingColumns.mp hmem))]

/-- Inversion of a successful fetch: a snapshot is only ever the result
of the batch fold (and, by the control flow, only with lookback 0). -/
theorem load_predictions_batched_ok_inv {lookbackHours nRows : Nat}
    {schemaNames : List String} {batches : List (List Row)} {rows : List Row}
    (h : load_predictions_batched lookbackHours nRows schemaNames batches =
      Except.ok rows) :
    rows = accumulateBatches nRows batches := by
  unfold load_predictions_batched at h
  by_cases hm : "event_time_ts" ∉ existingColumns schemaNames
  · rw [if_pos hm] at h
    exact absurd h (by simp)
  · rw [if_neg hm] at h
    by_cases hL : 0 < lookbackHours
    · rw [if_pos hL] at h
      exact absurd h (by simp)
    · rw [if_neg hL] at h
      exact (Except.ok.inj h).symm

/-- Claim C1: for every positive row cap, every successful batched fetch
returns at most `nRows` rows, sorted in descending order of
`event_time_ts`. -/
theorem claim_C1_bounded_sorted (lookbackHours nRows : Nat)
    (schemaNames : List String) (batches : List (List Row))
    (rows : List Row) (hN : 0 < nRows)
    (h : load_predictions_batched lookbackHours nRows schemaNames batches =
      Except.ok rows) :
    rows.length ≤ nRows ∧ List.Sorted descRel rows := by
  obtain rfl := load_predictions_batched_ok_inv h
  exact ⟨(accumulateBatches_inv nRows batches).1,
    (accumulateBatches_inv nRows batches).2.1⟩

/-- Claim C1 witness: the theorem at a one-batch dataset with cap 3 and
lookback 0. -/
theorem claim_C1_witness :
    ([rowA] : List Row).length ≤ 3 ∧ List.Sorted descRel [rowA] :=
  claim_C1_bounded_sorted 0 3 ["event_time_ts"] [[rowA]] [rowA]
    (by decide) (by decide)

/-- Claim C2: `signal_from_proba` returns BUY iff `p ≥ buy_threshold`,
SELL iff `p ≤ sell_threshold`, HOLD otherwise (given
`sell_threshold < buy_threshold`); with the default thresholds 0.60 and
0.40, `classify 0.60 = BUY`, `classify 0.40 = SELL` and
`classify 0.41 = classify 0.59 = HOLD`. -/
theorem claim_C2_classifier (buy sell p : Rat) (h : sell < buy) :
    (signal_from_proba buy sell p = "🟢 BUY" ↔ buy ≤ p) ∧
    (signal_from_proba buy sell p = "🔴 SELL" ↔ p ≤ sell) ∧
    (signal_from_proba buy sell p = "🟡 HOLD" ↔ sell < p ∧ p < buy) ∧
    signal_from_proba PROBA_BUY PROBA_SELL (60/100) = "🟢 BUY" ∧
    signal_from_proba PROBA_BUY PROBA_SELL (40/100) = "🔴 SELL" ∧
    signal_from_proba PROBA_BUY PROBA_SELL (41/100) = "🟡 HOLD" ∧
    signal_from_proba PROBA_BUY PROBA_SELL (59/100) = "🟡 HOLD" := by
  refine ⟨?_, ?_, ?_, ?_, ?_, ?_, ?_⟩
  · unfold signal_from_proba
    split_ifs with h1 h2
    · exact ⟨fun _ => h1, fun _ => rfl⟩
    · exact ⟨fun hs => absurd hs (by decide), fun hb => absurd hb h1⟩
    · exact ⟨fun hs => absurd hs (by decide), fun hb => absurd hb h1⟩
  · unfold signal_from_proba
    split_ifs with h1 h2
    · refine ⟨fun hs => absurd hs (by decide), fun hp => absurd h1 ?_⟩
      rw [ge_iff_le, not_le]
      exact lt_of_le_of_lt hp h
    · exact ⟨fun _ => h2, fun _ => rfl⟩
    · exact ⟨fun hs => absurd hs (by decide), fun hp => absurd hp h2⟩
  · unfold signal_from_proba
    split_ifs with h1 h2
    · exact ⟨fun hs => absurd hs (by decide),
        fun hx => absurd h1 (by rw [ge_iff_le, not_le]; exact hx.2)⟩
    · exact ⟨fun hs => absurd hs (by decide),
        fun hx => absurd h2 (by rw [not_le]; exact hx.1)⟩
    · rw [ge_iff_le, not_le] at h1
      rw [not_le] at h2
      exact ⟨fun _ => ⟨h2, h1⟩, fun _ => rfl⟩
  · unfold signal_from_proba PROBA_BUY
    rw [if_pos (by norm_num : (60 : Rat)/100 ≥ 3/5)]
  · unfold signal_from_proba PROBA_BUY PROBA_SELL
    rw [if_neg (by norm_num : ¬ (40 : Rat)/100 ≥ 3/5),
      if_pos (by norm_num : (40 : Rat)/100 ≤ 2/5)]
  · unfold signal_from_proba PROBA_BUY PROBA_SELL
    rw [if_neg (by norm_num : ¬ (41 : Rat)/100 ≥ 3/5),
      if_neg (by norm_num : ¬ (41 : Rat)/100 ≤ 2/5)]
  · unfold signal_from_proba PROBA_BUY PROBA_SELL
    rw [if_neg (by norm_num : ¬ (59 : Rat)/100 ≥ 3/5),
      if_neg (by norm_num : ¬ (59 : Rat)/100 ≤ 2/5)]

/-- Claim C2 witness: the theorem instantiated at the default
thresholds and the boundary probability 0.60. -/
theorem claim_C2_witness :
    signal_from_proba PROBA_BUY PROBA_SELL (3/5) = "🟢 BUY" :=
  (claim_C2_classifier PROBA_BUY PROBA_SELL (3/5)
    (by norm_num [PROBA_BUY, PROBA_SELL])).1.mpr (by norm_num [PROBA_BUY])

/-- Claim C3: when `event_time_ts` is absent from the dataset schema,
`load_predictions_batched` fails with the missing-ordering-column error
carrying the available column names, for every configuration (the check
of app.py lines 69-74 runs before the lookback block), and produces no
snapshot. -/
theorem claim_C3_missing_ordering_column (lookbackHours nRows : Nat)
    (schemaNames : List String) (batches : List (List Row))
    (h : "event_time_ts" ∉ schemaNames) :
    load_predictions_batched lookbackHours nRows schemaNames batches =
      Except.error (LoadError.missingOrderingColumn schemaNames) := by
  unfold load_predictions_batched
  rw [if_pos (fun hmem => h (mem_existingColumns.mp hmem))]

/-- Claim C3 witness: a schema without `event_time_ts` is rejected,
even with a lookback configured. -/
theorem claim_C3_witness :
    load_predictions_batched 24 3 ["symbol", "proba_up"] [[rowA]] =
      Except.error (LoadError.missingOrderingColumn ["symbol", "proba_up"]) :=
  claim_C3_missing_ordering_column 24 3 ["symbol", "proba_up"] [[rowA]]
    (by decide)

/-- Claim C4: schema projection returns exactly the intersection of the
desired column list with the schema, in the order of the desired list
(a sublist of it); desired columns absent from the schema are omitted
and no error can arise (the function is total). -/
theorem claim_C4_projection (desired schemaNames : List String) :
    (∀ c, c ∈ projectColumns desired schemaNames ↔
      c ∈ desired ∧ c ∈ schemaNames) ∧
    List.Sublist (projectColumns desired schemaNames) desired :=
  ⟨fun _ => mem_projectColumns, List.filter_sublist desired⟩

/-- Claim C5, evaluation at the failing input: with `LOOKBACK_HOURS = 24`
the time-window filter never runs.  The cutoff expression of app.py
line 79 calls `tz_localize("UTC")` on the already timezone-aware
`pd.Timestamp.utcnow()`, raising `TypeError` outside the `try` of lines
80-83, so the fetch aborts before any batch is scanned or filtered. -/
theorem claim_C5_lookback_crash :
    load_predictions_batched 24 5 ["event_time_ts"] [[rowA]] =
      Except.error LoadError.cutoffTypeError := by
  decide

/-- Claim C6 counterexample: with a 24 hour lookback configured, the
fetch never reaches the pushdown predicate — let alone its failure
handler — and returns no snapshot at all: it aborts with the
`TypeError` of app.py line 79.  So no predicate is ever "dropped" and
no post-read filtering can take place, contradicting the claimed
filtered snapshot. -/
theorem claim_C6_counterexample :
    load_predictions_batched 24 2000 ["event_time_ts"] [[rowOld]] =
      Except.error LoadError.cutoffTypeError := by
  decide

/-- Claim C6 amended: whenever a lookback is configured (the only case
in which a pushdown predicate could exist at all), the fetch raises the
uncaught `TypeError` of app.py line 79 before the predicate is built,
so the backend-rejection handler of lines 82-83 is unreachable, no
post-read time filter exists anywhere in the code, and no snapshot is
returned. -/
theorem claim_C6_cutoff_crash (lookbackHours nRows : Nat)
    (schemaNames : List String) (batches : List (List Row))
    (hmem : "event_time_ts" ∈ schemaNames) (hL : 0 < lookbackHours) :
    load_predictions_batched lookbackHours nRows schemaNames batches =
      Except.error LoadError.cutoffTypeError := by
  unfold load_predictions_batched
  rw [if_neg (fun hn => hn (mem_existingColumns.mpr hmem)), if_pos hL]

/-- Claim C6 witness: the amended theorem at a 48 hour lookback. -/
theorem claim_C6_witness :
    load_predictions_batched 48 3 ["event_time_ts", "symbol"] [[rowB]] =
      Except.error LoadError.cutoffTypeError :=
  claim_C6_cutoff_crash 48 3 ["event_time_ts", "symbol"] [[rowB]]
    (by decide) (by decide)

/-- Claim C7: every row of a successful snapshot has a parsed (non-null)
`event_time_ts`; rows failing to parse are dropped, never defaulted. -/
theorem claim_C7_event_time_never_null (lookbackHours nRows : Nat)
    (schemaNames : List String) (batches : List (List Row))
    (rows : List Row)
    (h : load_predictions_batched lookbackHours nRows schemaNames batches =
      Except.ok rows) :
    ∀ r ∈ rows, r.event_time_ts.isSome := by
  obtain rfl := load_predictions_batched_ok_inv h
  exact (accumulateBatches_inv nRows batches).2.2

/-- Claim C7 witness: the theorem at a batch that also contains a row
with an unparsable event time, which is dropped. -/
theorem claim_C7_witness : rowA.event_time_ts.isSome :=
  claim_C7_event_time_never_null 0 3 ["event_time_ts"]
    [[rowNull, rowA]] [rowA] (by decide) rowA (by decide)

/-- Claim C9 counterexample: on a dataset with no data at all, a fetch
with no lookback configured does not fail; it returns an empty snapshot
(`Except.ok []`), and the caching decorator caches it like any
successful result. -/
theorem claim_C9_counterexample :
    load_predictions_batched 0 2000 ["event_time_ts"] [] =
      Except.ok [] := by
  decide

/-- Claim C9 amended: when the dataset exposes no data (no record
batches) and no lookback is configured, the fetch succeeds with an
empty snapshot rather than raising a dedicated `SourceEmpty` error (no
such error kind, nor `SourceUnavailable`, exists in the code); the
empty frame is cached and handled by the UI
(`if pdf.empty: st.warning(...)`).  With a lookback configured the
fetch fails regardless of the dataset, but with the `TypeError` of
app.py line 79, not with a source-emptiness error. -/
theorem claim_C9_empty_dataset (nRows : Nat) (schemaNames : List String)
    (h : "event_time_ts" ∈ schemaNames) :
    load_predictions_batched 0 nRows schemaNames [] = Except.ok [] := by
  unfold load_predictions_batched
  rw [if_neg (fun hn => hn (mem_existingColumns.mpr h)),
    if_neg (Nat.lt_irrefl 0)]
  rfl

/-- Claim C9 witness: the amended theorem at a concrete schema, with
lookback 0. -/
theorem claim_C9_witness :
    load_predictions_batched 0 3 ["event_time_ts", "symbol"] [] =
      Except.ok [] :=
  claim_C9_empty_dataset 3 ["event_time_ts", "symbol"] (by decide)

end BtcApp
